import Mathlib

/-!
Verification development for the Amazon PPC Search Term Analyzer.

The repository ships a build plan (`PROJECT_PLAN.md`), a Next.js frontend
(`ThresholdSliders.tsx`, `NlpFilterPanel.tsx`, `ResultsPanel`, `DownloadButtons`)
and process scripts.  The Python backend (`analyzer.py`, `nlp_filter.py`,
`main.py`) is not present in the source tree, so the Field Normalizer, the
Category Classifier and the NLP Filter Translator are modelled from the spec
(each such definition says so in its doc comment).  Frontend computations
(`totalTerms`, the slider configuration and its change handler) are embedded
from the TypeScript source directly.

Numbers are modelled as rationals (the backend works on pandas floats; every
value the system manipulates is decimal).
-/

namespace PPC

/-! ## Decimal parsing (Field Normalizer support)

Modelled from the spec: percentage fields arrive as strings of the form
`"<number>%"`; the normalizer strips the `%` and parses the number. -/

/-- Value of a list of decimal digit characters; `none` when the list is empty
or holds a non-digit. -/
def digitsVal : List Char → Option Nat
  | [] => none
  | l =>
    l.foldl
      (fun acc c =>
        match acc with
        | none => none
        | some n => if c.isDigit then some (10 * n + (c.toNat - 48)) else none)
      (some 0)

/-- Split a character list at the first dot: the part before it, and
(`some`) the part after it when a dot is present. -/
def splitAtDot : List Char → List Char × Option (List Char)
  | [] => ([], none)
  | c :: cs =>
    if c = '.' then ([], some cs)
    else
      let r := splitAtDot cs
      (c :: r.1, r.2)

/-- Modelled from the spec: parse a non-negative decimal numeral
(`"12"`, `"1.84"`) into a rational; `none` on anything else. -/
def parseDecimalChars (l : List Char) : Option ℚ :=
  match splitAtDot l with
  | (intPart, none) => (digitsVal intPart).map (fun n => (n : ℚ))
  | (intPart, some fracPart) =>
    match digitsVal intPart, digitsVal fracPart with
    | some n, some f => some ((n : ℚ) + (f : ℚ) / ((10 : ℚ) ^ fracPart.length))
    | _, _ => none

/-- String front-end of `parseDecimalChars`. -/
def parseDecimal (s : String) : Option ℚ :=
  parseDecimalChars s.toList

/-! ## Field Normalizer -/

/-- Modelled from the spec: the error taxonomy entry for a percentage-style
field that fails to parse (missing values of percentage fields are also
ambiguous and propagate as an error). -/
inductive NormalizationError where
  | unparseable (s : String)
  | missingPercentField
deriving DecidableEq, Repr

/-- `some '%'`-terminated character lists, with the `%` stripped. -/
def stripPercent (l : List Char) : Option (List Char) :=
  if l.getLast? = some '%' then some l.dropLast else none

/-- Modelled from the spec: normalization of one percentage-formatted field
(`ACOS`, `Conversion Rate`, `Click-through Rate`).  A `"<number>%"` string is
parsed and divided by `100`; a value without the `%` suffix is treated as
already a fraction; a value that fails to parse — or a missing value — is a
`NormalizationError`, never a silent zero. -/
def normalizePct : Option String → Except NormalizationError ℚ
  | none => .error .missingPercentField
  | some s =>
    match stripPercent s.toList with
    | some body =>
      match parseDecimalChars body with
      | some q => .ok (q / 100)
      | none => .error (.unparseable s)
    | none =>
      match parseDecimalChars s.toList with
      | some q => .ok q
      | none => .error (.unparseable s)

/-- Modelled from the spec: normalization of one count/currency field
(impressions, clicks, orders, units, spend, sales): non-numeric or missing
values default to `0`. -/
def normalizeCount : Option String → ℚ
  | none => 0
  | some s => (parseDecimal s).getD 0

/-- A raw input row, fields as they arrive from the report (strings, possibly
absent). -/
structure RawRow where
  customer_search_term : String
  campaign_name : String
  ad_group_name : String
  portfolio_name : String
  match_type : Option String
  impressions : Option String
  clicks : Option String
  orders : Option String
  units : Option String
  spend : Option String
  sales : Option String
  acos : Option String
  conversion_rate : Option String
  click_through_rate : Option String
deriving DecidableEq, Repr

/-- A normalized row: numeric fields machine-usable rationals, `match_type`
kept as the raw optional string (`none` = missing/unparseable). -/
structure NormRow where
  customer_search_term : String
  campaign_name : String
  ad_group_name : String
  portfolio_name : String
  match_type : Option String
  impressions : ℚ
  clicks : ℚ
  orders : ℚ
  units : ℚ
  spend : ℚ
  sales : ℚ
  acos : ℚ
  conversion_rate : ℚ
  click_through_rate : ℚ
deriving DecidableEq, Repr

/-- Modelled from the spec: normalize one raw row.  Percentage fields may
fail (propagating a `NormalizationError`); count/currency fields default. -/
def normalizeRow (r : RawRow) : Except NormalizationError NormRow := do
  let a ← normalizePct r.acos
  let cv ← normalizePct r.conversion_rate
  let ct ← normalizePct r.click_through_rate
  pure
    { customer_search_term := r.customer_search_term
      campaign_name := r.campaign_name
      ad_group_name := r.ad_group_name
      portfolio_name := r.portfolio_name
      match_type := r.match_type
      impressions := normalizeCount r.impressions
      clicks := normalizeCount r.clicks
      orders := normalizeCount r.orders
      units := normalizeCount r.units
      spend := normalizeCount r.spend
      sales := normalizeCount r.sales
      acos := a
      conversion_rate := cv
      click_through_rate := ct }

/-! ## Category Classifier -/

/-- The five named threshold parameters
(`ThresholdSliders.tsx` interface `Thresholds`). -/
structure ThresholdConfig where
  click_threshold : ℚ
  acos_threshold : ℚ
  cvr_threshold : ℚ
  low_click_threshold : ℚ
  order_threshold : ℚ
deriving DecidableEq, Repr

/-- `DEFAULT_THRESHOLDS` of the frontend page (also the analyzer defaults of
the plan). -/
def defaultThresholds : ThresholdConfig :=
  { click_threshold := 10
    acos_threshold := 3 / 10
    cvr_threshold := 1 / 10
    low_click_threshold := 10
    order_threshold := 2 }

/-- Modelled from the spec: `filter_wasted_adspend` predicate —
`Clicks >= click_threshold AND Orders == 0`. -/
def wastedPred (cfg : ThresholdConfig) (r : NormRow) : Bool :=
  cfg.click_threshold ≤ r.clicks ∧ r.orders = 0

/-- Modelled from the spec: `filter_inefficient_adspend` predicate —
`ACOS >= acos_threshold AND Orders > 0`. -/
def inefficientPred (cfg : ThresholdConfig) (r : NormRow) : Bool :=
  cfg.acos_threshold ≤ r.acos ∧ 0 < r.orders

/-- Modelled from the spec: `filter_scaling_opportunity` predicate —
`Match Type == Exact AND Conversion Rate >= cvr_threshold AND
Clicks <= low_click_threshold`. -/
def scalingPred (cfg : ThresholdConfig) (r : NormRow) : Bool :=
  r.match_type = some "Exact" ∧ cfg.cvr_threshold ≤ r.conversion_rate ∧
    r.clicks ≤ cfg.low_click_threshold

/-- Modelled from the spec: `filter_harvesting_opportunity` predicate —
`Match Type NOT IN [Exact, Phrase, Broad] AND Orders > order_threshold`;
a missing/unparseable match type is not any of the three, hence eligible. -/
def harvestingPred (cfg : ThresholdConfig) (r : NormRow) : Bool :=
  r.match_type ≠ some "Exact" ∧ r.match_type ≠ some "Phrase" ∧
    r.match_type ≠ some "Broad" ∧ cfg.order_threshold < r.orders

/-- Modelled from the spec: the Wasted Adspend row-set. -/
def filterWasted (rows : List NormRow) (cfg : ThresholdConfig) : List NormRow :=
  rows.filter (wastedPred cfg)

/-- Modelled from the spec: the Inefficient Adspend row-set. -/
def filterInefficient (rows : List NormRow) (cfg : ThresholdConfig) : List NormRow :=
  rows.filter (inefficientPred cfg)

/-- Modelled from the spec: the Scaling Opportunity row-set. -/
def filterScaling (rows : List NormRow) (cfg : ThresholdConfig) : List NormRow :=
  rows.filter (scalingPred cfg)

/-- Modelled from the spec: the Harvesting Opportunity row-set. -/
def filterHarvesting (rows : List NormRow) (cfg : ThresholdConfig) : List NormRow :=
  rows.filter (harvestingPred cfg)

/-- The four independently computed category row-sets. -/
structure CategoryResults where
  wasted : List NormRow
  inefficient : List NormRow
  scaling : List NormRow
  harvesting : List NormRow
deriving DecidableEq, Repr

/-- Modelled from the spec: `analyze(thresholds)` — runs all four filters
over the same normalized row set. -/
def analyze (rows : List NormRow) (cfg : ThresholdConfig) : CategoryResults :=
  { wasted := filterWasted rows cfg
    inefficient := filterInefficient rows cfg
    scaling := filterScaling rows cfg
    harvesting := filterHarvesting rows cfg }

/-! ## NLP Filter Translator

Modelled from the spec: the translator receives a candidate structured
filter from the language-understanding collaborator, validates it against
fixed column/operator whitelists and literal typing, and — only when the
whole candidate validates — evaluates it over the normalized rows.  The
backend `nlp_filter.py` is not in the source tree; the structure of the
validated object follows the frontend `NlpResponse` interface
(`parsed_filter = {mode, limit, conditions}`). -/

/-- A literal carried by a candidate condition. -/
inductive Lit where
  | num (q : ℚ)
  | str (s : String)
deriving DecidableEq, Repr

/-- One candidate condition as decomposed from the collaborator response. -/
structure RawCondition where
  column : String
  op : String
  value : Lit
deriving DecidableEq, Repr

/-- The decomposed collaborator response: mode text, result-size limit and
condition list.  A response not decomposable into this shape is represented
as `none` at the translator entry. -/
structure RawFilter where
  mode : String
  limit : ℕ
  conditions : List RawCondition
deriving DecidableEq, Repr

/-- The column whitelist of the translator. -/
def allowedColumns : List String :=
  ["clicks", "orders", "spend", "sales", "acos", "conversion_rate",
   "click_through_rate", "impressions", "match_type", "customer_search_term"]

/-- The operator whitelist of the translator. -/
def allowedOps : List String :=
  ["eq", "ne", "gt", "gte", "lt", "lte", "contains"]

/-- Whitelisted columns carrying numeric values (the other two whitelisted
columns, `match_type` and `customer_search_term`, carry strings). -/
def numericColumns : List String :=
  ["clicks", "orders", "spend", "sales", "acos", "conversion_rate",
   "click_through_rate", "impressions"]

/-- Modelled from the spec: the translation error taxonomy
(`FilterTranslationError` variants: parse failure, disallowed column,
disallowed operator, malformed literal, collaborator timeout). -/
inductive FilterTranslationError where
  | unparseableResponse
  | badColumn (c : String)
  | badOp (o : String)
  | badLiteral (c : String)
  | badMode (m : String)
  | timeout
deriving DecidableEq, Repr

/-- Combination mode of a validated filter. -/
inductive Mode where
  | all
  | any
deriving DecidableEq, Repr

/-- A validated condition (column and operator on the whitelists, literal
well-typed for the column). -/
structure Condition where
  column : String
  op : String
  value : Lit
deriving DecidableEq, Repr

/-- The validated `StructuredFilter`: mode, conditions, result-size limit. -/
structure StructuredFilter where
  mode : Mode
  limit : ℕ
  conditions : List Condition
deriving DecidableEq, Repr

/-- `true` when the literal is well-typed for the (whitelisted) column:
numeric columns take numeric literals, string columns take string
literals. -/
def litWellTyped (col : String) (v : Lit) : Bool :=
  if col ∈ numericColumns then
    match v with
    | .num _ => true
    | .str _ => false
  else
    match v with
    | .num _ => false
    | .str _ => true

/-- Modelled from the spec: validate one candidate condition — disallowed
column, disallowed operator, or malformed literal each fail the whole
translation. -/
def validateCondition (c : RawCondition) : Except FilterTranslationError Condition :=
  if c.column ∉ allowedColumns then .error (.badColumn c.column)
  else if c.op ∉ allowedOps then .error (.badOp c.op)
  else if ¬ litWellTyped c.column c.value then .error (.badLiteral c.column)
  else .ok { column := c.column, op := c.op, value := c.value }

/-- Modelled from the spec: parse the mode text — `all` is conjunction,
`any` disjunction, anything else structurally invalid. -/
def parseMode (m : String) : Except FilterTranslationError Mode :=
  if m = "all" then .ok .all
  else if m = "any" then .ok .any
  else .error (.badMode m)

/-- Modelled from the spec: validate every candidate condition, failing on
the first invalid one — never a best-effort subset. -/
def validateAll : List RawCondition → Except FilterTranslationError (List Condition)
  | [] => .ok []
  | c :: cs => do
    let v ← validateCondition c
    let vs ← validateAll cs
    pure (v :: vs)

/-- Modelled from the spec: translate the (decomposed) collaborator
response into a validated `StructuredFilter`; any invalid part fails the
whole translation, never yielding a partial filter. -/
def translate : Option RawFilter → Except FilterTranslationError StructuredFilter
  | none => .error .unparseableResponse
  | some f => do
    let m ← parseMode f.mode
    let cs ← validateAll f.conditions
    pure { mode := m, limit := f.limit, conditions := cs }

/-- `startsWithL l p`: `p` is a leading segment of `l`. -/
def startsWithL : List Char → List Char → Bool
  | _, [] => true
  | [], _ :: _ => false
  | a :: as, b :: bs => a = b && startsWithL as bs

/-- `hasSubL p l`: `p` occurs contiguously inside `l`. -/
def hasSubL (p : List Char) : List Char → Bool
  | [] => p.isEmpty
  | c :: cs => startsWithL (c :: cs) p || hasSubL p cs

/-- The string value a whitelisted string column holds on a row (a missing
match type reads as the empty string). -/
def colStr (r : NormRow) (col : String) : String :=
  if col = "match_type" then r.match_type.getD ""
  else r.customer_search_term

/-- The numeric value a whitelisted numeric column holds on a row. -/
def colNum (r : NormRow) (col : String) : ℚ :=
  if col = "clicks" then r.clicks
  else if col = "orders" then r.orders
  else if col = "spend" then r.spend
  else if col = "sales" then r.sales
  else if col = "acos" then r.acos
  else if col = "conversion_rate" then r.conversion_rate
  else if col = "click_through_rate" then r.click_through_rate
  else r.impressions

/-- Modelled from the spec: evaluate one validated condition on a row. -/
def evalCond (c : Condition) (r : NormRow) : Bool :=
  match c.value with
  | .num q =>
    let v := colNum r c.column
    if c.op = "eq" then v = q
    else if c.op = "ne" then v ≠ q
    else if c.op = "gt" then q < v
    else if c.op = "gte" then q ≤ v
    else if c.op = "lt" then v < q
    else if c.op = "lte" then v ≤ q
    else false
  | .str s =>
    let v := colStr r c.column
    if c.op = "eq" then v = s
    else if c.op = "ne" then v ≠ s
    else if c.op = "contains" then hasSubL s.toList v.toList
    else false

/-- Modelled from the spec: a row matches the filter — every condition in
mode `all`, at least one in mode `any`. -/
def matchRow (f : StructuredFilter) (r : NormRow) : Bool :=
  match f.mode with
  | .all => f.conditions.all (fun c => evalCond c r)
  | .any => f.conditions.any (fun c => evalCond c r)

/-- The translator's result: full matched count and the preview truncated
to the filter's result-size limit (frontend `NlpResponse` fields
`matched_count`, `preview_rows`). -/
structure NlpResult where
  matched_count : ℕ
  preview_rows : List NormRow
deriving DecidableEq, Repr

/-- Modelled from the spec: apply a validated filter to the row set —
count every matching row, truncate the preview to the limit. -/
def evalFilter (f : StructuredFilter) (rows : List NormRow) : NlpResult :=
  let matched := rows.filter (matchRow f)
  { matched_count := matched.length, preview_rows := matched.take f.limit }

/-- Modelled from the spec: the whole translator pass — parse and validate
the collaborator response, then (only on success) evaluate; a failed
translation yields the error and no row is ever filtered. -/
def runNlp (resp : Option RawFilter) (rows : List NormRow) :
    Except FilterTranslationError NlpResult :=
  (translate resp).map (fun f => evalFilter f rows)

/-! ## Frontend: ResultsPanel -/

/-- The frontend `CategoryResult` interface (`ResultsPanel`). -/
structure CategoryResult where
  name : String
  count : ℕ
  totalClicks : ℚ
  totalSpend : ℚ
  totalOrders : ℚ
  avgAcos : ℚ
deriving DecidableEq, Repr

/-- Aggregate one category row-set into the frontend `CategoryResult`
shape (modelled from the spec for the backend aggregation: count, totals
and average ACOS over the category's rows). -/
def mkCategoryResult (name : String) (rows : List NormRow) : CategoryResult :=
  { name := name
    count := rows.length
    totalClicks := (rows.map NormRow.clicks).sum
    totalSpend := (rows.map NormRow.spend).sum
    totalOrders := (rows.map NormRow.orders).sum
    avgAcos :=
      if rows.length = 0 then 0
      else (rows.map NormRow.acos).sum / (rows.length : ℚ) }

/-- The four `CategoryResult`s the frontend receives for one analysis. -/
def categoryResults (rows : List NormRow) (cfg : ThresholdConfig) :
    List CategoryResult :=
  [mkCategoryResult "Wasted Adspend" (filterWasted rows cfg),
   mkCategoryResult "Inefficient Adspend" (filterInefficient rows cfg),
   mkCategoryResult "Scaling Opportunity" (filterScaling rows cfg),
   mkCategoryResult "Harvesting Opportunity" (filterHarvesting rows cfg)]

/-- `ResultsPanel`'s displayed total:
`results.reduce((s, r) => s + r.count, 0)`. -/
def totalTerms (results : List CategoryResult) : ℕ :=
  results.foldl (fun s r => s + r.count) 0

/-- The number of categories a row belongs to under a configuration. -/
def categoriesOf (cfg : ThresholdConfig) (r : NormRow) : ℕ :=
  (if wastedPred cfg r then 1 else 0) + (if inefficientPred cfg r then 1 else 0) +
    (if scalingPred cfg r then 1 else 0) + (if harvestingPred cfg r then 1 else 0)

/-! ## Frontend: ThresholdSliders -/

/-- The keys of the `Thresholds` object (`keyof Thresholds`). -/
inductive ThresholdKey where
  | click_threshold
  | acos_threshold
  | cvr_threshold
  | low_click_threshold
  | order_threshold
deriving DecidableEq, Repr

/-- One entry of the `SLIDERS` configuration (`ThresholdSliders.tsx`):
key, range bounds and step of the range input. -/
structure SliderConfig where
  key : ThresholdKey
  min : ℚ
  max : ℚ
  step : ℚ
deriving DecidableEq, Repr

/-- The `SLIDERS` array of `ThresholdSliders.tsx` (label/format/color
presentation fields omitted). -/
def SLIDERS : List SliderConfig :=
  [{ key := .click_threshold, min := 1, max := 50, step := 1 },
   { key := .acos_threshold, min := 5 / 100, max := 1, step := 5 / 100 },
   { key := .cvr_threshold, min := 1 / 100, max := 1 / 2, step := 1 / 100 },
   { key := .low_click_threshold, min := 1, max := 30, step := 1 },
   { key := .order_threshold, min := 1, max := 20, step := 1 }]

/-- `thresholds[s.key]` — read one key of the `Thresholds` object. -/
def getThreshold (t : ThresholdConfig) : ThresholdKey → ℚ
  | .click_threshold => t.click_threshold
  | .acos_threshold => t.acos_threshold
  | .cvr_threshold => t.cvr_threshold
  | .low_click_threshold => t.low_click_threshold
  | .order_threshold => t.order_threshold

/-- `handleChange(key, value)`: `onChange({...thresholds, [key]: value})` —
the spread copies every other key, the computed key takes the new value. -/
def handleChange (t : ThresholdConfig) : ThresholdKey → ℚ → ThresholdConfig
  | .click_threshold, v => { t with click_threshold := v }
  | .acos_threshold, v => { t with acos_threshold := v }
  | .cvr_threshold, v => { t with cvr_threshold := v }
  | .low_click_threshold, v => { t with low_click_threshold := v }
  | .order_threshold, v => { t with order_threshold := v }

/-- The values an HTML range input with bounds `c.min`/`c.max` and step
`c.step` can submit: `min + k·step` for some `k`, within the range. -/
def canSubmit (c : SliderConfig) (v : ℚ) : Prop :=
  ∃ k : ℕ, v = c.min + k * c.step ∧ v ≤ c.max

/-! ## Session view of a classification pass -/

/-- A caller-owned analysis session: the normalized table it holds. -/
structure Session where
  table : List NormRow
deriving DecidableEq, Repr

/-- Modelled from the spec: one classification pass over a session —
side-effect free, it returns the four `CategoryResults` and leaves the
session's table as it was (the classifier never mutates the input). -/
def classifyStep (s : Session) (cfg : ThresholdConfig) :
    CategoryResults × Session :=
  (analyze s.table cfg, s)

/-! ## Shared example rows -/

/-- A quiet row: every metric zero, match type missing. -/
def baseRow : NormRow :=
  { customer_search_term := "dog bed"
    campaign_name := "Campaign A"
    ad_group_name := "Ad Group 1"
    portfolio_name := "Portfolio"
    match_type := none
    impressions := 0
    clicks := 0
    orders := 0
    units := 0
    spend := 0
    sales := 0
    acos := 0
    conversion_rate := 0
    click_through_rate := 0 }

/-- The spec's non-partition example: `clicks=10, orders=0, match_type=Auto`. -/
def autoRow : NormRow :=
  { baseRow with match_type := some "Auto", clicks := 10, orders := 0 }

/-- A row in two categories at default thresholds: Exact match with ten
unconverted clicks but a high stored conversion rate, so both Wasted
Adspend and Scaling Opportunity hold. -/
def overlapRow : NormRow :=
  { baseRow with match_type := some "Exact", clicks := 10, orders := 0,
                 conversion_rate := 1 / 2 }

/-! ## Theorems -/

/-- C2. Membership in Wasted Adspend is exactly
`clicks ≥ click_threshold ∧ orders = 0`; a row with
`clicks = click_threshold` and no orders is Wasted, a row with
`clicks = click_threshold - 1` is not. -/
theorem wasted_adspend_membership (rows : List NormRow) (cfg : ThresholdConfig)
    (r : NormRow) :
    (r ∈ filterWasted rows cfg ↔
      r ∈ rows ∧ cfg.click_threshold ≤ r.clicks ∧ r.orders = 0) ∧
    (r ∈ rows → r.clicks = cfg.click_threshold → r.orders = 0 →
      r ∈ filterWasted rows cfg) ∧
    (r.clicks = cfg.click_threshold - 1 → r ∉ filterWasted rows cfg) := by
  have hmem : r ∈ filterWasted rows cfg ↔
      r ∈ rows ∧ cfg.click_threshold ≤ r.clicks ∧ r.orders = 0 := by
    simp [filterWasted, List.mem_filter, wastedPred]
  refine ⟨hmem, fun hr hc ho => hmem.mpr ⟨hr, le_of_eq hc.symm, ho⟩, fun hc hin => ?_⟩
  have h := (hmem.mp hin).2.1
  rw [hc] at h
  linarith

/-- Witness for C2 at the boundary: ten clicks is Wasted at the default
threshold of ten, nine clicks is not. -/
theorem wasted_adspend_membership_witness :
    ({ baseRow with clicks := 10 } ∈
        filterWasted [{ baseRow with clicks := 10 }] defaultThresholds) ∧
    ({ baseRow with clicks := 9 } ∉
        filterWasted [{ baseRow with clicks := 9 }] defaultThresholds) :=
  ⟨(wasted_adspend_membership _ defaultThresholds _).2.1 (by simp)
      (by norm_num [defaultThresholds]) rfl,
   (wasted_adspend_membership _ defaultThresholds _).2.2
      (by norm_num [defaultThresholds])⟩

/-- C3. Membership in Harvesting Opportunity is exactly: match type none of
Exact/Phrase/Broad (a missing match type qualifies) and
`orders > order_threshold` strictly; a row with
`orders = order_threshold` is not Harvesting. -/
theorem harvesting_membership (rows : List NormRow) (cfg : ThresholdConfig)
    (r : NormRow) :
    (r ∈ filterHarvesting rows cfg ↔
      r ∈ rows ∧ r.match_type ≠ some "Exact" ∧ r.match_type ≠ some "Phrase" ∧
        r.match_type ≠ some "Broad" ∧ cfg.order_threshold < r.orders) ∧
    (r ∈ rows → r.match_type = none → cfg.order_threshold < r.orders →
      r ∈ filterHarvesting rows cfg) ∧
    (r.orders = cfg.order_threshold → r ∉ filterHarvesting rows cfg) := by
  have hmem : r ∈ filterHarvesting rows cfg ↔
      r ∈ rows ∧ r.match_type ≠ some "Exact" ∧ r.match_type ≠ some "Phrase" ∧
        r.match_type ≠ some "Broad" ∧ cfg.order_threshold < r.orders := by
    simp [filterHarvesting, List.mem_filter, harvestingPred]
  refine ⟨hmem, fun hr hnone ho => hmem.mpr ⟨hr, ?_, ?_, ?_, ho⟩, fun ho hin => ?_⟩
  · simp [hnone]
  · simp [hnone]
  · simp [hnone]
  · have h := (hmem.mp hin).2.2.2.2
    rw [ho] at h
    exact lt_irrefl _ h

/-- Witness for C3: a missing-match-type row with three orders is
Harvesting at the default order threshold of two; a row with exactly two
orders is not. -/
theorem harvesting_membership_witness :
    ({ baseRow with orders := 3 } ∈
        filterHarvesting [{ baseRow with orders := 3 }] defaultThresholds) ∧
    ({ baseRow with orders := 2 } ∉
        filterHarvesting [{ baseRow with orders := 2 }] defaultThresholds) :=
  ⟨(harvesting_membership _ defaultThresholds _).2.1 (by simp) rfl (by decide),
   (harvesting_membership _ defaultThresholds _).2.2 (by decide)⟩

/-- C7. Raising only `click_threshold` never grows Wasted Adspend: the
row-set at the higher threshold is a subset of the one at the lower
threshold, and its count is no larger. -/
theorem wasted_monotone_in_click_threshold (rows : List NormRow)
    (c c' : ThresholdConfig) (h : c.click_threshold ≤ c'.click_threshold) :
    (∀ r, r ∈ filterWasted rows c' → r ∈ filterWasted rows c) ∧
    (filterWasted rows c').length ≤ (filterWasted rows c).length := by
  have hp : ∀ r, wastedPred c' r → wastedPred c r := by
    intro r hr
    simp only [wastedPred, decide_eq_true_eq] at hr ⊢
    exact ⟨le_trans h hr.1, hr.2⟩
  refine ⟨fun r hr => ?_, (List.monotone_filter_right rows hp).length_le⟩
  rw [filterWasted, List.mem_filter] at hr ⊢
  exact ⟨hr.1, hp r hr.2⟩

/-- Witness for C7 at the spec's example: raising the click threshold from
10 to 20 does not increase the Wasted Adspend count. -/
theorem wasted_monotone_in_click_threshold_witness :
    (filterWasted [autoRow]
        { defaultThresholds with click_threshold := 20 }).length ≤
      (filterWasted [autoRow] defaultThresholds).length :=
  (wasted_monotone_in_click_threshold [autoRow] defaultThresholds
      { defaultThresholds with click_threshold := 20 }
      (by norm_num [defaultThresholds])).2

/-- C5. The four category filters are independent and membership is not a
partition: the spec's `clicks=10, orders=0, match_type=Auto` row is Wasted
but absent from Harvesting at default thresholds, a row can sit in two
categories at once, a row can sit in none, and each filter's result depends
only on its own threshold (so no category's result is affected by
another's). -/
theorem categories_independent (rows : List NormRow) (c c' : ThresholdConfig) :
    (autoRow ∈ filterWasted [autoRow] defaultThresholds) ∧
    (autoRow ∉ filterHarvesting [autoRow] defaultThresholds) ∧
    (overlapRow ∈ filterWasted [overlapRow] defaultThresholds) ∧
    (overlapRow ∈ filterScaling [overlapRow] defaultThresholds) ∧
    (categoriesOf defaultThresholds baseRow = 0) ∧
    (c.click_threshold = c'.click_threshold →
      filterWasted rows c = filterWasted rows c') ∧
    (c.order_threshold = c'.order_threshold →
      filterHarvesting rows c = filterHarvesting rows c') ∧
    (analyze rows c = ⟨filterWasted rows c, filterInefficient rows c,
      filterScaling rows c, filterHarvesting rows c⟩) := by
  refine ⟨?_, ?_, ?_, ?_, ?_, fun h => ?_, fun h => ?_, rfl⟩
  · norm_num [filterWasted, wastedPred, autoRow, baseRow, defaultThresholds,
      List.filter]
  · norm_num [filterHarvesting, harvestingPred, autoRow, baseRow,
      defaultThresholds, List.filter]
  · norm_num [filterWasted, wastedPred, overlapRow, baseRow, defaultThresholds,
      List.filter]
  · norm_num [filterScaling, scalingPred, overlapRow, baseRow, defaultThresholds,
      List.filter]
  · norm_num [categoriesOf, wastedPred, inefficientPred, scalingPred,
      harvestingPred, baseRow, defaultThresholds]
  · have hp : wastedPred c = wastedPred c' := funext fun r => by
      simp [wastedPred, h]
    rw [filterWasted, filterWasted, hp]
  · have hp : harvestingPred c = harvestingPred c' := funext fun r => by
      simp [harvestingPred, h]
    rw [filterHarvesting, filterHarvesting, hp]

/-- Witness for C5: the Wasted Adspend row-set is unchanged when only the
harvesting order threshold moves. -/
theorem categories_independent_witness :
    filterWasted [autoRow] defaultThresholds =
      filterWasted [autoRow] { defaultThresholds with order_threshold := 99 } :=
  (categories_independent [autoRow] defaultThresholds
      { defaultThresholds with order_threshold := 99 }).2.2.2.2.2.1 rfl

/-- The number of distinct rows flagged by at least one category. -/
def distinctFlagged (rows : List NormRow) (cfg : ThresholdConfig) : ℕ :=
  (rows.filter (fun r => 0 < categoriesOf cfg r)).length

lemma four_filter_lengths_eq_sum_categoriesOf (rows : List NormRow)
    (cfg : ThresholdConfig) :
    (filterWasted rows cfg).length + (filterInefficient rows cfg).length +
        (filterScaling rows cfg).length + (filterHarvesting rows cfg).length =
      (rows.map (categoriesOf cfg)).sum := by
  induction rows with
  | nil =>
    simp [filterWasted, filterInefficient, filterScaling, filterHarvesting]
  | cons r t ih =>
    simp only [filterWasted, filterInefficient, filterScaling, filterHarvesting,
      List.filter_cons, List.map_cons, List.sum_cons] at ih ⊢
    by_cases hw : wastedPred cfg r <;> by_cases hi : inefficientPred cfg r <;>
      by_cases hs : scalingPred cfg r <;> by_cases hh : harvestingPred cfg r <;>
      simp [hw, hi, hs, hh, categoriesOf] <;> omega

/-- C9. The results panel's `totalTerms` is the arithmetic sum of the four
categories' counts; a row in `k` categories contributes `k` (the total
equals the sum over rows of the number of categories each row is in), and
the figure is not the number of distinct flagged terms: one row in two
categories yields a displayed total of `2` but only `1` distinct flagged
term. -/
theorem total_terms_sums_category_counts (results : List CategoryResult)
    (rows : List NormRow) (cfg : ThresholdConfig) :
    (totalTerms results = (results.map CategoryResult.count).sum) ∧
    (totalTerms (categoryResults rows cfg) =
      (filterWasted rows cfg).length + (filterInefficient rows cfg).length +
        (filterScaling rows cfg).length + (filterHarvesting rows cfg).length) ∧
    (totalTerms (categoryResults rows cfg) =
      (rows.map (categoriesOf cfg)).sum) ∧
    (totalTerms (categoryResults [overlapRow] defaultThresholds) = 2) ∧
    (distinctFlagged [overlapRow] defaultThresholds = 1) := by
  have h1 : ∀ res : List CategoryResult,
      totalTerms res = (res.map CategoryResult.count).sum := by
    intro res
    rw [totalTerms, List.sum_eq_foldl, List.foldl_map]
  have h2 : totalTerms (categoryResults rows cfg) =
      (filterWasted rows cfg).length + (filterInefficient rows cfg).length +
        (filterScaling rows cfg).length + (filterHarvesting rows cfg).length := by
    simp [totalTerms, categoryResults, mkCategoryResult, List.foldl]
  refine ⟨h1 results, h2, ?_, ?_, ?_⟩
  · rw [h2, four_filter_lengths_eq_sum_categoriesOf]
  · norm_num [totalTerms, categoryResults, mkCategoryResult, filterWasted,
      filterInefficient, filterScaling, filterHarvesting, wastedPred,
      inefficientPred, scalingPred, harvestingPred, overlapRow, baseRow,
      defaultThresholds, List.filter, List.foldl]
  · norm_num [distinctFlagged, categoriesOf, wastedPred, inefficientPred,
      scalingPred, harvestingPred, overlapRow, baseRow, defaultThresholds,
      List.filter]

/-- C8. A classification pass is pure and repeatable: it leaves the session
table exactly as it was, classifying the post-pass table again with the same
thresholds gives identical `CategoryResults`, the results are a function of
the table and thresholds alone, and any two sessions holding the same table
classify identically. -/
theorem classification_pure_idempotent (s s' : Session) (cfg : ThresholdConfig) :
    ((classifyStep s cfg).2 = s) ∧
    ((classifyStep ((classifyStep s cfg).2) cfg).1 = (classifyStep s cfg).1) ∧
    ((classifyStep s cfg).1 = analyze s.table cfg) ∧
    (s.table = s'.table → (classifyStep s cfg).1 = (classifyStep s' cfg).1) := by
  refine ⟨rfl, rfl, rfl, fun h => ?_⟩
  simp [classifyStep, h]

/-- Witness for C8: two passes on one concrete session agree and leave the
session unchanged. -/
theorem classification_pure_idempotent_witness :
    (classifyStep ⟨[autoRow]⟩ defaultThresholds).2 = ⟨[autoRow]⟩ ∧
    (classifyStep ((classifyStep ⟨[autoRow]⟩ defaultThresholds).2)
        defaultThresholds).1 =
      (classifyStep ⟨[autoRow]⟩ defaultThresholds).1 :=
  ⟨(classification_pure_idempotent ⟨[autoRow]⟩ ⟨[autoRow]⟩ defaultThresholds).1,
   (classification_pure_idempotent ⟨[autoRow]⟩ ⟨[autoRow]⟩ defaultThresholds).2.1⟩

/-- C4. Percentage fields `"<number>%"` normalize to the number divided by
100 (`"1.84%"` to `0.0184`); a parseable value without the `%` suffix is
kept as the fraction it already is; an unparseable or missing percentage
value is a `NormalizationError`, never a silent zero; count/currency fields
default unparseable or missing values to `0`. -/
theorem percentage_normalization :
    (∀ (s : String) (l : List Char) (q : ℚ), s.toList = l ++ ['%'] →
      parseDecimalChars l = some q → normalizePct (some s) = .ok (q / 100)) ∧
    (normalizePct (some "1.84%") = .ok (184 / 10000)) ∧
    (∀ (s : String) (q : ℚ), s.toList.getLast? ≠ some '%' →
      parseDecimal s = some q → normalizePct (some s) = .ok q) ∧
    (∀ (s : String) (l : List Char), s.toList = l ++ ['%'] →
      parseDecimalChars l = none →
      normalizePct (some s) = .error (.unparseable s)) ∧
    (∀ (s : String), s.toList.getLast? ≠ some '%' → parseDecimal s = none →
      normalizePct (some s) = .error (.unparseable s)) ∧
    (normalizePct none = .error .missingPercentField) ∧
    (∀ (s : String) (q : ℚ), parseDecimal s = some q →
      normalizeCount (some s) = q) ∧
    (∀ (s : String), parseDecimal s = none → normalizeCount (some s) = 0) ∧
    (normalizeCount none = 0) := by
  refine ⟨fun s l q h hp => ?_, ?_, fun s q h hp => ?_, fun s l h hp => ?_,
    fun s h hp => ?_, rfl, fun s q hp => ?_, fun s hp => ?_, rfl⟩
  · have hd : s.data = l ++ ['%'] := h
    simp [normalizePct, stripPercent, hd, hp]
  · simp [normalizePct, stripPercent, parseDecimalChars, splitAtDot, digitsVal,
      List.foldl]
    norm_num
  · have hd : s.data.getLast? ≠ some '%' := h
    have hq : parseDecimalChars s.data = some q := hp
    simp [normalizePct, stripPercent, hd, hq]
  · have hd : s.data = l ++ ['%'] := h
    simp [normalizePct, stripPercent, hd, hp]
  · have hd : s.data.getLast? ≠ some '%' := h
    have hq : parseDecimalChars s.data = none := hp
    simp [normalizePct, stripPercent, hd, hq]
  · simp [normalizeCount, hp]
  · simp [normalizeCount, hp]

/-- Witness for C4: `"7%"` normalizes to `7 / 100`, a suffix-free `"7"`
stays `7`, the unparseable `"n/a"` is an error for a percentage field but
defaults to `0` as a count field. -/
theorem percentage_normalization_witness :
    normalizePct (some "7%") = .ok (7 / 100) ∧
    normalizePct (some "7") = .ok 7 ∧
    normalizePct (some "n/a") = .error (.unparseable "n/a") ∧
    normalizeCount (some "n/a") = 0 :=
  ⟨percentage_normalization.1 "7%" ['7'] 7 (by decide) (by decide),
   percentage_normalization.2.2.1 "7" 7 (by decide) (by decide),
   percentage_normalization.2.2.2.2.1 "n/a" (by decide) (by decide),
   percentage_normalization.2.2.2.2.2.2.2.1 "n/a" (by decide)⟩

/-- The conditions of the spec's `all`-mode example:
`[clicks > 50, spend > 100]` with a result-size limit of `100`. -/
def c6Filter : StructuredFilter :=
  { mode := .all, limit := 100,
    conditions := [⟨"clicks", "gt", .num 50⟩, ⟨"spend", "gt", .num 100⟩] }

/-- The matching example row `{clicks:60, spend:120}`. -/
def c6RowA : NormRow := { baseRow with clicks := 60, spend := 120 }

/-- The non-matching example row `{clicks:40, spend:200}`. -/
def c6RowB : NormRow := { baseRow with clicks := 40, spend := 200 }

/-- C6. A validated `StructuredFilter` matches a row in mode `all` iff every
condition holds and in mode `any` iff at least one does; the preview is the
matched rows truncated to the filter's limit while the matched count is the
full number of matching rows; the spec's `all` example over
`[clicks > 50, spend > 100]` on `{clicks:60,spend:120}` and
`{clicks:40,spend:200}` yields a matched count of `1`. -/
theorem nlp_filter_evaluation (f : StructuredFilter) (rows : List NormRow)
    (r : NormRow) :
    (f.mode = .all →
      (matchRow f r = true ↔ ∀ c ∈ f.conditions, evalCond c r = true)) ∧
    (f.mode = .any →
      (matchRow f r = true ↔ ∃ c ∈ f.conditions, evalCond c r = true)) ∧
    ((evalFilter f rows).matched_count = (rows.filter (matchRow f)).length) ∧
    ((evalFilter f rows).preview_rows =
      (rows.filter (matchRow f)).take f.limit) ∧
    ((evalFilter f rows).preview_rows.length ≤ f.limit) ∧
    ((evalFilter f rows).preview_rows.length ≤
      (evalFilter f rows).matched_count) ∧
    ((evalFilter c6Filter [c6RowA, c6RowB]).matched_count = 1) := by
  refine ⟨fun h => ?_, fun h => ?_, rfl, rfl, ?_, ?_, by decide⟩
  · simp [matchRow, h, List.all_eq_true]
  · simp [matchRow, h, List.any_eq_true]
  · simp [evalFilter]
  · simp [evalFilter]

/-- Witness for C6: the first example row matches the `all` filter, and the
example's matched count is `1`. -/
theorem nlp_filter_evaluation_witness :
    matchRow c6Filter c6RowA = true ∧
    (evalFilter c6Filter [c6RowA, c6RowB]).matched_count = 1 :=
  ⟨(nlp_filter_evaluation c6Filter [c6RowA, c6RowB] c6RowA).1 rfl |>.mpr
      (by decide),
   (nlp_filter_evaluation c6Filter [c6RowA, c6RowB] c6RowA).2.2.2.2.2.2⟩

lemma validateCondition_ok_inv (a : RawCondition) (b : Condition)
    (h : validateCondition a = .ok b) :
    a.column ∈ allowedColumns ∧ a.op ∈ allowedOps ∧
      litWellTyped a.column a.value = true ∧ b = ⟨a.column, a.op, a.value⟩ := by
  unfold validateCondition at h
  split_ifs at h with h1 h2 h3
  simp_all

lemma validateCondition_error_of_bad (a : RawCondition)
    (h : a.column ∉ allowedColumns ∨ a.op ∉ allowedOps ∨
      litWellTyped a.column a.value = false) :
    (validateCondition a).isOk = false := by
  unfold validateCondition
  split_ifs with h1 h2 h3 <;>
    simp_all [Except.isOk, Except.toBool]

lemma validateAll_ok_inv (l : List RawCondition) (res : List Condition)
    (h : validateAll l = .ok res) :
    ∀ c ∈ res, c.column ∈ allowedColumns ∧ c.op ∈ allowedOps ∧
      litWellTyped c.column c.value = true := by
  induction l generalizing res with
  | nil =>
    simp only [validateAll] at h
    cases h
    simp
  | cons a t ih =>
    simp only [validateAll, Bind.bind, Except.bind] at h
    cases hv : validateCondition a with
    | error e => rw [hv] at h; simp at h
    | ok b =>
      rw [hv] at h
      cases ht : validateAll t with
      | error e => rw [ht] at h; simp at h
      | ok bs =>
        rw [ht] at h
        simp only [pure, Except.pure, Except.ok.injEq] at h
        subst h
        intro c hc
        rcases List.mem_cons.mp hc with rfl | hmem
        · obtain ⟨hcol, hop, hlit, hb⟩ := validateCondition_ok_inv a c hv
          subst hb
          exact ⟨hcol, hop, hlit⟩
        · exact ih bs ht c hmem

lemma validateAll_error_of_mem (l : List RawCondition) (c : RawCondition)
    (hc : c ∈ l) (hbad : (validateCondition c).isOk = false) :
    (validateAll l).isOk = false := by
  induction l with
  | nil => simp at hc
  | cons a t ih =>
    rcases List.mem_cons.mp hc with rfl | hmem
    · simp only [validateAll, Bind.bind, Except.bind]
      cases hv : validateCondition c with
      | error e => simp [Except.isOk, Except.toBool]
      | ok b => rw [hv] at hbad; simp [Except.isOk, Except.toBool] at hbad
    · simp only [validateAll, Bind.bind, Except.bind]
      cases hv : validateCondition a with
      | error e => simp [Except.isOk, Except.toBool]
      | ok b =>
        cases ht : validateAll t with
        | error e => simp [Except.isOk, Except.toBool]
        | ok bs =>
          have hall := ih hmem
          rw [ht] at hall
          simp [Except.isOk, Except.toBool] at hall

/-- C1. The translator fails closed: an undecomposable response, a
non-whitelisted column, a non-whitelisted operator or a malformed literal
each fail the whole translation, and a failed translation applies no filter
at all; conversely a successful translation evaluates exactly the validated
conditions, every one on the whitelists with a well-typed literal. -/
theorem nlp_translation_fails_closed (f : RawFilter) (rows : List NormRow) :
    (runNlp none rows = .error .unparseableResponse) ∧
    (∀ sf, translate (some f) = .ok sf →
      parseMode f.mode = .ok sf.mode ∧ sf.limit = f.limit ∧
      validateAll f.conditions = .ok sf.conditions ∧
      ∀ c ∈ sf.conditions, c.column ∈ allowedColumns ∧ c.op ∈ allowedOps ∧
        litWellTyped c.column c.value = true) ∧
    ((f.mode ≠ "all" ∧ f.mode ≠ "any") ∨
      (∃ c ∈ f.conditions, c.column ∉ allowedColumns ∨ c.op ∉ allowedOps ∨
        litWellTyped c.column c.value = false) →
      (translate (some f)).isOk = false ∧ (runNlp (some f) rows).isOk = false) := by
  refine ⟨rfl, fun sf h => ?_, fun hbad => ?_⟩
  · simp only [translate, Bind.bind, Except.bind] at h
    cases hm : parseMode f.mode with
    | error e => rw [hm] at h; simp at h
    | ok m =>
      rw [hm] at h
      cases hv : validateAll f.conditions with
      | error e => rw [hv] at h; simp at h
      | ok cs =>
        rw [hv] at h
        simp only [pure, Except.pure, Except.ok.injEq] at h
        subst h
        exact ⟨rfl, rfl, rfl, validateAll_ok_inv _ _ hv⟩
  · have ht : (translate (some f)).isOk = false := by
      rcases hbad with ⟨h1, h2⟩ | ⟨c, hc, hbadc⟩
      · have hm : parseMode f.mode = .error (.badMode f.mode) := by
          simp [parseMode, h1, h2]
        simp [translate, Bind.bind, Except.bind, hm, Except.isOk, Except.toBool]
      · have hva := validateAll_error_of_mem f.conditions c hc
          (validateCondition_error_of_bad c hbadc)
        simp only [translate, Bind.bind, Except.bind]
        cases hm : parseMode f.mode with
        | error e => simp [Except.isOk, Except.toBool]
        | ok m =>
          cases hv : validateAll f.conditions with
          | error e => simp [Except.isOk, Except.toBool]
          | ok cs => rw [hv] at hva; simp [Except.isOk, Except.toBool] at hva
    refine ⟨ht, ?_⟩
    rw [runNlp]
    cases htr : translate (some f) with
    | error e => simp [Except.map, Except.isOk, Except.toBool]
    | ok sf => rw [htr] at ht; simp [Except.isOk, Except.toBool] at ht

/-- A collaborator response whose single condition names a column off the
whitelist. -/
def badFilter : RawFilter :=
  { mode := "all", limit := 50,
    conditions := [⟨"campaign_id", "gt", .num 5⟩] }

/-- Witness for C1: the `campaign_id` condition fails the whole translation
and no filter is applied. -/
theorem nlp_translation_fails_closed_witness :
    (translate (some badFilter)).isOk = false ∧
    (runNlp (some badFilter) []).isOk = false :=
  (nlp_translation_fails_closed badFilter []).2.2
    (Or.inr ⟨⟨"campaign_id", "gt", .num 5⟩, by simp [badFilter],
      Or.inl (by decide)⟩)

lemma submit_bounds (cmin cmax cstep w : ℚ) (hmin : 0 < cmin)
    (hstep : 0 ≤ cstep) (n : ℕ) (hw : w = cmin + n * cstep) (hle : w ≤ cmax) :
    cmin ≤ w ∧ w ≤ cmax ∧ 0 < w := by
  have hn : (0 : ℚ) ≤ (n : ℚ) * cstep := mul_nonneg (by positivity) hstep
  subst hw
  exact ⟨by linarith, hle, by linarith⟩

/-- C10. Every value a slider can submit lies in its configured positive
range — `click_threshold` in `[1,50]`, `acos_threshold` in `[0.05,1]`,
`cvr_threshold` in `[0.01,0.5]`, `low_click_threshold` in `[1,30]`,
`order_threshold` in `[1,20]`, never zero or negative — and a slider change
updates exactly its own key of the `Thresholds` object, leaving every other
key unchanged. -/
theorem slider_range_and_isolated_update (t : ThresholdConfig) (v : ℚ)
    (k k' : ThresholdKey) (c : SliderConfig) :
    (c ∈ SLIDERS → ∀ w, canSubmit c w → c.min ≤ w ∧ w ≤ c.max ∧ 0 < w) ∧
    (∀ cc ∈ SLIDERS,
      (cc.key = .click_threshold → cc.min = 1 ∧ cc.max = 50) ∧
      (cc.key = .acos_threshold → cc.min = 5 / 100 ∧ cc.max = 1) ∧
      (cc.key = .cvr_threshold → cc.min = 1 / 100 ∧ cc.max = 1 / 2) ∧
      (cc.key = .low_click_threshold → cc.min = 1 ∧ cc.max = 30) ∧
      (cc.key = .order_threshold → cc.min = 1 ∧ cc.max = 20)) ∧
    (getThreshold (handleChange t k v) k = v) ∧
    (k' ≠ k → getThreshold (handleChange t k v) k' = getThreshold t k') := by
  refine ⟨fun hc w hw => ?_, fun cc hcc => ?_, ?_, fun hne => ?_⟩
  · obtain ⟨n, hwv, hle⟩ := hw
    simp only [SLIDERS, List.mem_cons, List.not_mem_nil, or_false] at hc
    rcases hc with rfl | rfl | rfl | rfl | rfl <;>
      exact submit_bounds _ _ _ _ (by norm_num) (by norm_num) n hwv hle
  · simp only [SLIDERS, List.mem_cons, List.not_mem_nil, or_false] at hcc
    rcases hcc with rfl | rfl | rfl | rfl | rfl <;> simp
  · cases k <;> simp [handleChange, getThreshold]
  · cases k <;> cases k' <;> simp_all [handleChange, getThreshold]

/-- Witness for C10: from the click-threshold slider, the step-2 value `3`
is inside `[1,50]` and positive; changing `click_threshold` to `3` sets
exactly that key and leaves `order_threshold` as it was. -/
theorem slider_range_and_isolated_update_witness :
    ((1 : ℚ) ≤ 3 ∧ (3 : ℚ) ≤ 50 ∧ (0 : ℚ) < 3) ∧
    getThreshold (handleChange defaultThresholds .click_threshold 3)
        .click_threshold = 3 ∧
    getThreshold (handleChange defaultThresholds .click_threshold 3)
        .order_threshold = getThreshold defaultThresholds .order_threshold := by
  refine ⟨?_, ?_, ?_⟩
  · exact (slider_range_and_isolated_update defaultThresholds 3 .click_threshold
      .order_threshold ⟨.click_threshold, 1, 50, 1⟩).1 (List.mem_cons_self _ _)
      3 ⟨2, by norm_num, by norm_num⟩
  · exact (slider_range_and_isolated_update defaultThresholds 3 .click_threshold
      .order_threshold ⟨.click_threshold, 1, 50, 1⟩).2.2.1
  · exact (slider_range_and_isolated_update defaultThresholds 3 .click_threshold
      .order_threshold ⟨.click_threshold, 1, 50, 1⟩).2.2.2 (by decide)

end PPC
